import Mathlib

/-!
Verification development for the Calico policy-match evaluator (`checker`)
and the IPIP tunnel/route manager (`ipipManager`).

The match engine itself (`match.go`) is not part of the visible excerpt:
only its test suite (`app-policy/checker/match_test.go`) is.  Per the
specification, the engine is modelled here from the spec's component
design (section 4.1), with the in-repo tests used to settle points where
the spec is ambiguous or self-contradictory.  The `ipipManager.OnUpdate`
handler is translated directly from `felix/dataplane/linux/ipip_mgr.go`.
-/

namespace Calico

/-- An IP address: IPv4 addresses are naturals below 2^32, IPv6 below 2^128. -/
inductive IPAddr where
  | v4 (a : Nat)
  | v6 (a : Nat)
deriving DecidableEq, Repr

/-- Builds an IPv4 address from its four dotted-quad octets. -/
def mkIPv4 (a b c d : Nat) : IPAddr :=
  IPAddr.v4 (((a * 256 + b) * 256 + c) * 256 + d)

/-- A parsed CIDR: a base address together with a prefix length. -/
structure CIDR where
  addr : IPAddr
  maskLen : Nat
deriving DecidableEq, Repr

/-- IP version (4 or 6) of a parsed CIDR. -/
def cidrVersion (cd : CIDR) : Nat :=
  match cd.addr with
  | IPAddr.v4 _ => 4
  | IPAddr.v6 _ => 6

/-- Splits a character list at every occurrence of a separator character,
with the semantics of String.splitOn for a one-character separator. -/
def splitCharAux (sep : Char) : List Char → List Char → List (List Char)
  | [], acc => [acc.reverse]
  | c :: rest, acc =>
    if c == sep then acc.reverse :: splitCharAux sep rest []
    else splitCharAux sep rest (c :: acc)

/-- Splits a string on a one-character separator. -/
def splitChar (sep : Char) (s : String) : List String :=
  (splitCharAux sep s.data []).map String.mk

/-- Splits a character list at every double colon, with the semantics of
String.splitOn for the two-character separator. -/
def splitDoubleColonAux : List Char → List Char → List (List Char)
  | [], acc => [acc.reverse]
  | [c], acc => [(c :: acc).reverse]
  | c1 :: c2 :: rest, acc =>
    if c1 == ':' && c2 == ':' then acc.reverse :: splitDoubleColonAux rest []
    else splitDoubleColonAux (c2 :: rest) (c1 :: acc)

/-- Splits a string at every double colon. -/
def splitDoubleColon (s : String) : List String :=
  (splitDoubleColonAux s.data []).map String.mk

/-- True when the first string starts with the second. -/
def strStartsWith (s t : String) : Bool := t.data.isPrefixOf s.data

/-- True when the first string ends with the second. -/
def strEndsWith (s t : String) : Bool := t.data.isSuffixOf s.data

/-- Drops the first n characters of a string. -/
def strDrop (s : String) (n : Nat) : String := ⟨s.data.drop n⟩

/-- Drops the last n characters of a string. -/
def strDropRight (s : String) (n : Nat) : String := ⟨s.data.take (s.data.length - n)⟩

/-- Parses a non-empty all-digit string as a decimal natural. -/
def parseDecimal (s : String) : Option Nat :=
  if s.data.length = 0 then none
  else if s.data.all Char.isDigit then
    some (s.data.foldl (fun a c => a * 10 + (c.toNat - 48)) 0)
  else none

/-- Parses one dotted-quad octet: 1-3 digits, value at most 255. -/
def parseIPv4Octet (s : String) : Option Nat :=
  if s.data.length = 0 ∨ s.data.length > 3 then none
  else (parseDecimal s).bind (fun n => if n ≤ 255 then some n else none)

/-- Models the IPv4 branch of Go's net.ParseIP: four octets separated by dots. -/
def parseIPv4 (s : String) : Option Nat :=
  match splitChar '.' s with
  | [a, b, c, d] =>
    (parseIPv4Octet a).bind fun x =>
    (parseIPv4Octet b).bind fun y =>
    (parseIPv4Octet c).bind fun z =>
    (parseIPv4Octet d).map fun w => ((x * 256 + y) * 256 + z) * 256 + w
  | _ => none

/-- Value of one hexadecimal digit, in either case. -/
def hexDigitVal (c : Char) : Option Nat :=
  if c.isDigit then some (c.toNat - 48)
  else if 97 ≤ c.toNat ∧ c.toNat ≤ 102 then some (c.toNat - 87)
  else if 65 ≤ c.toNat ∧ c.toNat ≤ 70 then some (c.toNat - 55)
  else none

/-- Parses one 16-bit IPv6 group: 1-4 hex digits. -/
def parseHexGroup (s : String) : Option Nat :=
  if s.data.length = 0 ∨ s.data.length > 4 then none
  else s.data.foldl (fun acc c => acc.bind fun a => (hexDigitVal c).map fun d => a * 16 + d)
    (some 0)

/-- Parses each colon-separated group of an IPv6 fragment. -/
def parseGroups (parts : List String) : Option (List Nat) :=
  parts.foldr (fun p acc => acc.bind fun l => (parseHexGroup p).map fun g => g :: l)
    (some [])

/-- Combines 16-bit groups, most significant first, into one natural. -/
def groupsToNat (gs : List Nat) : Nat := gs.foldl (fun a g => a * 65536 + g) 0

/-- Splits an IPv6 fragment on single colons; the empty fragment has no groups. -/
def colonParts (s : String) : List String :=
  if s == "" then [] else splitChar ':' s

/-- Models the IPv6 branch of Go's net.ParseIP: eight hex groups, with at most
one double-colon standing for one or more zero groups.  The embedded-IPv4 tail
form is not modelled; such strings are treated as unparseable. -/
def parseIPv6 (s : String) : Option Nat :=
  match splitDoubleColon s with
  | [t] =>
    match parseGroups (colonParts t) with
    | some gs => if gs.length = 8 then some (groupsToNat gs) else none
    | none => none
  | [l, r] =>
    match parseGroups (colonParts l), parseGroups (colonParts r) with
    | some gl, some gr =>
      if gl.length + gr.length ≤ 7 then
        some (groupsToNat (gl ++ List.replicate (8 - gl.length - gr.length) 0 ++ gr))
      else none
    | _, _ => none
  | _ => none

/-- Models net.ParseIP: try the IPv4 form, then the IPv6 form. -/
def parseIP (s : String) : Option IPAddr :=
  match parseIPv4 s with
  | some n => some (IPAddr.v4 n)
  | none => (parseIPv6 s).map IPAddr.v6

/-- Models net.ParseCIDR (used by both libcalico-go and felix/ip, which are
outside the excerpt): an address, a slash, and a prefix length bounded by the
address family's width.  A malformed string yields none. -/
def parseCIDR (s : String) : Option CIDR :=
  match splitChar '/' s with
  | [a, l] =>
    (parseDecimal l).bind fun ml =>
    match parseIP a with
    | some (IPAddr.v4 n) => if ml ≤ 32 then some ⟨IPAddr.v4 n, ml⟩ else none
    | some (IPAddr.v6 n) => if ml ≤ 128 then some ⟨IPAddr.v6 n, ml⟩ else none
    | none => none
  | _ => none

/-- Containment test of an address in a CIDR, as in Go's IPNet.Contains: the
high maskLen bits must agree, and the address families must agree (a 4-byte
network never contains a 16-byte address and vice versa). -/
def cidrContains (cd : CIDR) (a : IPAddr) : Bool :=
  match cd.addr, a with
  | IPAddr.v4 n, IPAddr.v4 x =>
    n / 2 ^ (32 - cd.maskLen) == x / 2 ^ (32 - cd.maskLen)
  | IPAddr.v6 n, IPAddr.v6 x =>
    n / 2 ^ (128 - cd.maskLen) == x / 2 ^ (128 - cd.maskLen)
  | _, _ => false

/-- True when the CIDR's base address is IPv4. -/
def cidrIsV4 (cd : CIDR) : Bool :=
  match cd.addr with
  | IPAddr.v4 _ => true
  | IPAddr.v6 _ => false

/-- True when the CIDR's base address is IPv6. -/
def cidrIsV6 (cd : CIDR) : Bool :=
  match cd.addr with
  | IPAddr.v4 _ => false
  | IPAddr.v6 _ => true

/-- Modelled from the spec: one entry of a `SrcNet`/`DstNet` list contributes a
match when it parses as a CIDR containing the address; a malformed entry is
silently non-matching. -/
def netContainsIP (s : String) (a : IPAddr) : Bool :=
  match parseCIDR s with
  | none => false
  | some cd => cidrContains cd a

/-- Modelled from the spec: `matchNet` (match.go is outside the excerpt).
Empty list matches anything; otherwise the address must fall in at least one
listed CIDR. -/
def matchNet (nets : List String) (a : IPAddr) : Bool :=
  nets.isEmpty || nets.any (fun s => netContainsIP s a)

/-- The single-quote character, used to delimit selector literal values. -/
def quoteChar : Char := Char.ofNat 39

/-- Characters allowed in a label-selector key. -/
def isIdentChar (c : Char) : Bool :=
  c.isAlphanum || c == '_' || c == '-' || c == '.' || c == '/'

/-- Abstract syntax of the label-selector forms the spec exhibits: the
universal selector, a key-presence test, and quoted equality/inequality. -/
inductive Selector where
  | selAll
  | hasKey (k : String)
  | eqVal (k v : String)
  | neVal (k v : String)
deriving DecidableEq, Repr

/-- A whitespace character, for selector trimming. -/
def isSpaceChar (c : Char) : Bool :=
  c == ' ' || c == Char.ofNat 9 || c == Char.ofNat 10 || c == Char.ofNat 13

/-- Removes leading and trailing whitespace. -/
def strTrim (s : String) : String :=
  ⟨((s.data.dropWhile isSpaceChar).reverse.dropWhile isSpaceChar).reverse⟩

/-- Splits a character list at every space-delimited two-character operator
(" m1m2 "), with the semantics of String.splitOn for that separator. -/
def splitBinOpAux (m1 m2 : Char) : List Char → List Char → List (List Char)
  | c1 :: c2 :: c3 :: c4 :: rest, acc =>
    if c1 == ' ' && c2 == m1 && c3 == m2 && c4 == ' ' then
      acc.reverse :: splitBinOpAux m1 m2 rest []
    else splitBinOpAux m1 m2 (c2 :: c3 :: c4 :: rest) (c1 :: acc)
  | cs, acc => [acc.reverse ++ cs]

/-- Splits a string at every space-delimited two-character operator. -/
def splitBinOp (m1 m2 : Char) (s : String) : List String :=
  (splitBinOpAux m1 m2 s.data []).map String.mk

/-- Strips the single quotes from a selector literal value. -/
def parseQuoted (v : String) : Option String :=
  let inner : List Char := (v.data.drop 1).take (v.data.length - 2)
  if v.data.length ≥ 2 ∧ v.data.head? = some quoteChar
      ∧ v.data.getLast? = some quoteChar
      ∧ inner.all (fun c => !(c == quoteChar)) = true then
    some ⟨inner⟩
  else none

/-- Modelled from the spec: the label-selector language (defined in
libcalico-go, outside the excerpt), restricted to the forms the spec and the
test suite exhibit.  A bare word with no operator, such as
"not.a.real.selector", is syntactically invalid and parses to none. -/
def parseSelector (s : String) : Option Selector :=
  let t := strTrim s
  if t == "all()" then some Selector.selAll
  else if strStartsWith t "has(" && strEndsWith t ")" then
    let k := strDropRight (strDrop t 4) 1
    if k ≠ "" ∧ k.data.all isIdentChar = true then some (Selector.hasKey k) else none
  else
    match splitBinOp '=' '=' t with
    | [k, v] =>
      if k ≠ "" ∧ k.data.all isIdentChar = true then
        (parseQuoted v).map (fun w => Selector.eqVal k w)
      else none
    | _ =>
      match splitBinOp '!' '=' t with
      | [k, v] =>
        if k ≠ "" ∧ k.data.all isIdentChar = true then
          (parseQuoted v).map (fun w => Selector.neVal k w)
        else none
      | _ => none

/-- Standard label-selector evaluation against a label map. -/
def evalSelector (sel : Selector) (labels : List (String × String)) : Bool :=
  match sel with
  | Selector.selAll => true
  | Selector.hasKey k => (labels.lookup k).isSome
  | Selector.eqVal k v => labels.lookup k == some v
  | Selector.neVal k v => !(labels.lookup k == some v)

/-- Modelled from the spec: `matchLabels` (match.go is outside the excerpt).
An empty selector string matches anything; a syntactically invalid selector
never matches (fails closed); otherwise standard evaluation. -/
def matchLabels (sel : String) (labels : List (String × String)) : Bool :=
  if sel == "" then true
  else
    match parseSelector sel with
    | none => false
    | some s => evalSelector s labels

/-- Modelled from the spec: `matchName`.  An empty name list matches any
candidate; otherwise exact string membership. -/
def matchName (names : List String) (candidate : String) : Bool :=
  names.isEmpty || names.contains candidate

/-- The panic payload raised on malformed data from the data plane, as in
checker's InvalidDataFromDataPlane type. -/
structure InvalidDataFromDataPlane where
  info : String
deriving DecidableEq, Repr

/-- A path matcher: exact string equality or literal-prefix comparison. -/
inductive PathMatch where
  | exact (s : String)
  | pfx (s : String)
deriving DecidableEq, Repr

/-- Truncates a request path at the first question mark or hash. -/
def stripQueryFragment (s : String) : String :=
  ⟨s.data.takeWhile (fun c => !(c == '?' || c == '#'))⟩

/-- Applies one path matcher to an already-truncated path. -/
def pathMatches (pm : PathMatch) (p : String) : Bool :=
  match pm with
  | PathMatch.exact t => p == t
  | PathMatch.pfx t => strStartsWith p t

/-- Modelled from the spec: `matchHTTPPaths`.  Empty list matches anything;
a candidate path not rooted at "/" is a data-plane-trust violation raised as a
panic-class condition (the error branch), never a plain false; otherwise the
path is truncated at the first query or fragment delimiter and at least one
matcher must match. -/
def matchHTTPPaths (paths : List PathMatch) (reqPath : String) :
    Except InvalidDataFromDataPlane Bool :=
  if paths.isEmpty then Except.ok true
  else if !strStartsWith reqPath "/" then
    Except.error ⟨"invalid HTTP request path " ++ reqPath⟩
  else Except.ok (paths.any fun pm => pathMatches pm (stripQueryFragment reqPath))

/-- Modelled from the spec: `matchHTTPMethods`.  Empty list matches anything;
a "*" element matches unconditionally; otherwise case-sensitive membership. -/
def matchHTTPMethods (methods : List String) (reqMethod : String) : Bool :=
  methods.isEmpty || methods.any (fun m => m == "*" || m == reqMethod)

/-- The HTTP sub-clause of a rule. -/
structure HTTPMatch where
  methods : List String := []
  paths : List PathMatch := []
deriving DecidableEq, Repr

/-- Modelled from the spec: `matchHTTP`.  An absent clause matches anything;
otherwise both the methods and the paths sub-matchers must hold (methods are
checked first, short-circuiting as Go's && does). -/
def matchHTTP (hm : Option HTTPMatch) (reqMethod reqPath : String) :
    Except InvalidDataFromDataPlane Bool :=
  match hm with
  | none => Except.ok true
  | some h =>
    if !matchHTTPMethods h.methods reqMethod then Except.ok false
    else matchHTTPPaths h.paths reqPath

/-- A protocol given by case-sensitive name or by IANA number. -/
inductive ProtocolSpec where
  | name (s : String)
  | number (n : Nat)
deriving DecidableEq, Repr

/-- IANA numbers of the protocol names Calico understands. -/
def protocolNameToNumber (s : String) : Option Nat :=
  if s == "TCP" then some 6
  else if s == "UDP" then some 17
  else if s == "ICMP" then some 1
  else if s == "ICMPv6" then some 58
  else if s == "SCTP" then some 132
  else if s == "UDPLite" then some 136
  else none

/-- Compares a protocol specification with the flow's numeric protocol. -/
def protocolSpecMatches (p : ProtocolSpec) (flowProtocol : Nat) : Bool :=
  match p with
  | ProtocolSpec.name s =>
    match protocolNameToNumber s with
    | some n => n == flowProtocol
    | none => false
  | ProtocolSpec.number n => n == flowProtocol

/-- Modelled from the spec: the positive protocol clause; unset matches any. -/
def matchProtocol (p : Option ProtocolSpec) (flowProtocol : Nat) : Bool :=
  match p with
  | none => true
  | some q => protocolSpecMatches q flowProtocol

/-- Modelled from the spec: the negated protocol clause; unset matches any. -/
def matchNotProtocol (p : Option ProtocolSpec) (flowProtocol : Nat) : Bool :=
  match p with
  | none => true
  | some q => !protocolSpecMatches q flowProtocol

/-- An inclusive port range; first = last denotes a single port. -/
structure PortRange where
  first : Nat
  last : Nat
deriving DecidableEq, Repr

/-- Modelled from the spec: port matching; empty list matches anything, else
the port must fall inclusively inside at least one range. -/
def matchPortRanges (ranges : List PortRange) (port : Nat) : Bool :=
  ranges.isEmpty ||
    ranges.any (fun r => decide (r.first ≤ port) && decide (port ≤ r.last))

/-- One IP set from the policy store: an opaque set of encoded member keys
(raw IP strings, IP-protocol-port tuple strings, or bare port strings). -/
structure IPSet where
  keys : List String
deriving DecidableEq, Repr

/-- The read-only policy-store snapshot the request cache wraps: IP sets by
ID and namespace label maps by namespace name. -/
structure PolicyStore where
  ipSetByID : List (String × IPSet) := []
  namespaceLabelsByName : List (String × List (String × String)) := []
deriving DecidableEq, Repr

/-- Hex digit character, lowercase. -/
def hexDigitChar (n : Nat) : Char :=
  if n < 10 then Char.ofNat (48 + n) else Char.ofNat (87 + n)

/-- Joins strings with a separator between consecutive elements. -/
def joinWith (sep : String) : List String → String
  | [] => ""
  | [x] => x
  | x :: y :: rest => x ++ sep ++ joinWith sep (y :: rest)

/-- Renders a 16-bit group in lowercase hex without leading zeros. -/
def toHexGroup (n : Nat) : String :=
  if n < 16 then String.mk [hexDigitChar n]
  else if n < 256 then String.mk [hexDigitChar (n / 16), hexDigitChar (n % 16)]
  else if n < 4096 then
    String.mk [hexDigitChar (n / 256), hexDigitChar (n / 16 % 16), hexDigitChar (n % 16)]
  else
    String.mk [hexDigitChar (n / 4096 % 16), hexDigitChar (n / 256 % 16),
      hexDigitChar (n / 16 % 16), hexDigitChar (n % 16)]

/-- Renders an address as an IP-set member key: dotted quad for IPv4, and for
IPv6 the uncompressed colon-hex form (the spec's claims only exercise the IPv4
encoding; Go additionally compresses zero runs in the IPv6 form). -/
def ipKey : IPAddr → String
  | IPAddr.v4 n =>
    Nat.repr (n / 16777216 % 256) ++ "." ++ Nat.repr (n / 65536 % 256) ++ "." ++
      Nat.repr (n / 256 % 256) ++ "." ++ Nat.repr (n % 256)
  | IPAddr.v6 n =>
    joinWith ":" ((List.range 8).map (fun i => toHexGroup (n / 2 ^ (16 * (7 - i)) % 65536)))

/-- Membership of a key in the store's IP set of the given ID; an unknown set
ID behaves as an empty set (spec: unknown reference is not an error). -/
def ipSetContains (store : PolicyStore) (id key : String) : Bool :=
  match store.ipSetByID.lookup id with
  | none => false
  | some s => s.keys.contains key

/-- Modelled from the spec: a positive IP-set-ID list matches when empty or
when the flow's address key is a member of at least one named set.  An absent
flow address matches only the empty list. -/
def matchIPSetIds (store : PolicyStore) (ids : List String) (key : Option String) : Bool :=
  ids.isEmpty ||
    (match key with
     | none => false
     | some k => ids.any (fun id => ipSetContains store id k))

/-- Modelled from the spec: a negative IP-set-ID list matches when the flow's
address key is a member of none of the named sets (vacuously for the empty
list or an absent address). -/
def matchNotIPSetIds (store : PolicyStore) (ids : List String) (key : Option String) : Bool :=
  ids.isEmpty ||
    (match key with
     | none => true
     | some k => ids.all (fun id => !ipSetContains store id k))

/-- Lowercase protocol label used inside IP-protocol-port tuple keys. -/
def protoLabel (n : Nat) : String :=
  if n == 6 then "tcp" else if n == 17 then "udp" else Nat.repr n

/-- Tuple key of a destination (IP, protocol, port), as "ip,proto:port". -/
def ipPortKey (ipk : String) (protocolNumber port : Nat) : String :=
  ipk ++ "," ++ protoLabel protocolNumber ++ ":" ++ Nat.repr port

/-- Modelled from the spec: `DstIpPortSetIds` matches when empty or when the
flow's destination tuple key is a member of at least one named set. -/
def matchIPPortSetIds (store : PolicyStore) (ids : List String) (key : Option String) : Bool :=
  ids.isEmpty ||
    (match key with
     | none => false
     | some k => ids.any (fun id => ipSetContains store id k))

/-- CIDR-list matching lifted to an optional flow address: the empty list
matches anything; a non-empty list never matches an absent address. -/
def matchNetOpt (nets : List String) (a : Option IPAddr) : Bool :=
  nets.isEmpty ||
    (match a with
     | none => false
     | some x => nets.any (fun s => netContainsIP s x))

/-- A service-account match clause: a set of exact names. -/
structure ServiceAccountMatch where
  names : List String := []
deriving DecidableEq, Repr

/-- Modelled from the spec: an absent service-account clause matches anything;
otherwise the flow's account name must be listed (empty list matches any). -/
def matchServiceAccount (sam : Option ServiceAccountMatch) (accountName : String) : Bool :=
  match sam with
  | none => true
  | some m => matchName m.names accountName

/-- Modelled from the spec and settled by TestMatchRulePolicyNamespace: a rule
carrying a pod-label selector or a service-account match, evaluated for a
namespaced policy (non-empty policy namespace), is restricted to flows in the
policy's own namespace; otherwise no policy-namespace restriction applies.
(The spec's 4.1 scoping row states the opposite trigger; the in-repo test is
authoritative and this definition follows it and the spec's section 8.) -/
def namespaceScope (policyNamespace podSelector : String)
    (sam : Option ServiceAccountMatch) (flowNamespace : String) : Bool :=
  if policyNamespace != "" && (podSelector != "" || sam.isSome) then
    policyNamespace == flowNamespace
  else true

/-- Labels of a namespace as recorded in the store; unknown namespaces have
no labels. -/
def namespaceLabels (store : PolicyStore) (ns : String) : List (String × String) :=
  (store.namespaceLabelsByName.lookup ns).getD []

/-- The normalized per-request view of one flow, as produced by the flow
adapter: addresses, ports, numeric protocol, identities, HTTP attributes. -/
structure Flow where
  sourceIP : Option IPAddr := none
  destIP : Option IPAddr := none
  sourcePort : Nat := 0
  destPort : Nat := 0
  protocol : Nat := 6
  sourceNamespace : String := ""
  sourceServiceAccount : String := ""
  destNamespace : String := ""
  destServiceAccount : String := ""
  httpMethod : String := ""
  httpPath : String := ""
deriving DecidableEq, Repr

/-- The request cache: one policy-store snapshot plus one immutable flow. -/
structure RequestCache where
  store : PolicyStore
  flow : Flow
deriving DecidableEq, Repr

/-- A declarative policy rule; every field is optional and an absent or empty
field is a wildcard. -/
structure Rule where
  srcServiceAccountMatch : Option ServiceAccountMatch := none
  dstServiceAccountMatch : Option ServiceAccountMatch := none
  originalSrcSelector : String := ""
  originalDstSelector : String := ""
  originalSrcNamespaceSelector : String := ""
  originalDstNamespaceSelector : String := ""
  srcIpSetIds : List String := []
  notSrcIpSetIds : List String := []
  dstIpSetIds : List String := []
  notDstIpSetIds : List String := []
  dstIpPortSetIds : List String := []
  srcNet : List String := []
  dstNet : List String := []
  srcPorts : List PortRange := []
  dstPorts : List PortRange := []
  protocol : Option ProtocolSpec := none
  notProtocol : Option ProtocolSpec := none
  httpMatch : Option HTTPMatch := none
deriving DecidableEq, Repr

/-- The rule with every clause empty or absent. -/
def emptyRule : Rule := {}

/-- Modelled from the spec: the conjunction of all source-side clauses. -/
def matchSource (policyNamespace : String) (r : Rule) (c : RequestCache) : Bool :=
  namespaceScope policyNamespace r.originalSrcSelector r.srcServiceAccountMatch
      c.flow.sourceNamespace &&
    matchLabels r.originalSrcNamespaceSelector
      (namespaceLabels c.store c.flow.sourceNamespace) &&
    matchServiceAccount r.srcServiceAccountMatch c.flow.sourceServiceAccount &&
    matchIPSetIds c.store r.srcIpSetIds (c.flow.sourceIP.map ipKey) &&
    matchNotIPSetIds c.store r.notSrcIpSetIds (c.flow.sourceIP.map ipKey) &&
    matchPortRanges r.srcPorts c.flow.sourcePort &&
    matchNetOpt r.srcNet c.flow.sourceIP

/-- Modelled from the spec: the conjunction of all destination-side clauses. -/
def matchDestination (policyNamespace : String) (r : Rule) (c : RequestCache) : Bool :=
  namespaceScope policyNamespace r.originalDstSelector r.dstServiceAccountMatch
      c.flow.destNamespace &&
    matchLabels r.originalDstNamespaceSelector
      (namespaceLabels c.store c.flow.destNamespace) &&
    matchServiceAccount r.dstServiceAccountMatch c.flow.destServiceAccount &&
    matchIPSetIds c.store r.dstIpSetIds (c.flow.destIP.map ipKey) &&
    matchNotIPSetIds c.store r.notDstIpSetIds (c.flow.destIP.map ipKey) &&
    matchIPPortSetIds c.store r.dstIpPortSetIds
      (c.flow.destIP.map (fun a => ipPortKey (ipKey a) c.flow.protocol c.flow.destPort)) &&
    matchPortRanges r.dstPorts c.flow.destPort &&
    matchNetOpt r.dstNet c.flow.destIP

/-- Modelled from the spec: both the positive and the negated protocol clause
must hold against the flow's transport protocol. -/
def matchL4Protocol (r : Rule) (f : Flow) : Bool :=
  matchProtocol r.protocol f.protocol && matchNotProtocol r.notProtocol f.protocol

/-- Modelled from the spec: `match(policyNamespace, rule, cache)`.  True iff
every populated sub-clause is satisfied; the clause groups are evaluated with
short-circuiting conjunction, so the HTTP-path panic condition propagates only
when the earlier groups match.  The panic-class condition is the Except error
branch, distinguishable by type from an ordinary false. -/
def matchRule (policyNamespace : String) (r : Rule) (c : RequestCache) :
    Except InvalidDataFromDataPlane Bool :=
  if !matchSource policyNamespace r c then Except.ok false
  else if !matchDestination policyNamespace r c then Except.ok false
  else
    match matchHTTP r.httpMatch c.flow.httpMethod c.flow.httpPath with
    | Except.error e => Except.error e
    | Except.ok false => Except.ok false
    | Except.ok true => Except.ok (matchL4Protocol r c.flow)

/-- A rule whose source-side clauses fail does not match. -/
theorem matchRule_of_source_false (pns : String) (r : Rule) (c : RequestCache)
    (h : matchSource pns r c = false) : matchRule pns r c = Except.ok false := by
  simp [matchRule, h]

/-- A rule whose destination-side clauses fail does not match. -/
theorem matchRule_of_dest_false (pns : String) (r : Rule) (c : RequestCache)
    (hs : matchSource pns r c = true) (hd : matchDestination pns r c = false) :
    matchRule pns r c = Except.ok false := by
  simp [matchRule, hs, hd]

/-- When both endpoint sides match but the HTTP clause evaluates to false, the
rule does not match. -/
theorem matchRule_of_http_ok_false (pns : String) (r : Rule) (c : RequestCache)
    (hs : matchSource pns r c = true) (hd : matchDestination pns r c = true)
    (hh : matchHTTP r.httpMatch c.flow.httpMethod c.flow.httpPath = Except.ok false) :
    matchRule pns r c = Except.ok false := by
  simp [matchRule, hs, hd, hh]

/-- When both endpoint sides and the HTTP clause match, the rule's result is
the protocol clause's. -/
theorem matchRule_of_http_ok_true (pns : String) (r : Rule) (c : RequestCache)
    (hs : matchSource pns r c = true) (hd : matchDestination pns r c = true)
    (hh : matchHTTP r.httpMatch c.flow.httpMethod c.flow.httpPath = Except.ok true) :
    matchRule pns r c = Except.ok (matchL4Protocol r c.flow) := by
  simp [matchRule, hs, hd, hh]

/-- Inversion: a matching rule has all four clause groups satisfied. -/
theorem matchRule_ok_true_elim (pns : String) (r : Rule) (c : RequestCache)
    (h : matchRule pns r c = Except.ok true) :
    matchSource pns r c = true ∧ matchDestination pns r c = true ∧
      matchHTTP r.httpMatch c.flow.httpMethod c.flow.httpPath = Except.ok true ∧
      matchL4Protocol r c.flow = true := by
  unfold matchRule at h
  cases hs : matchSource pns r c with
  | false => rw [hs] at h; simp at h
  | true =>
    rw [hs] at h
    cases hd : matchDestination pns r c with
    | false => rw [hd] at h; simp at h
    | true =>
      rw [hd] at h
      simp only [Bool.not_true, Bool.false_eq_true, if_false] at h
      rcases hh : matchHTTP r.httpMatch c.flow.httpMethod c.flow.httpPath with e | b
      · rw [hh] at h; simp at h
      · rw [hh] at h
        cases b with
        | false => simp at h
        | true => simp at h; exact ⟨rfl, rfl, rfl, h⟩

/-- Non-emptiness of a list as its Bool isEmpty test. -/
theorem isEmpty_false_of_ne_nil {α : Type} {l : List α} (h : l ≠ []) :
    l.isEmpty = false := by
  cases l with
  | nil => exact absurd rfl h
  | cons a t => rfl

/-- Claim C4: for every non-empty list of path matchers and every candidate
path that does not begin with "/", matchHTTPPaths raises the panic-class
InvalidDataFromDataPlane condition (the Except error branch), never a plain
false. -/
theorem c4_bad_path_raises_invalid_data (paths : List PathMatch) (p : String)
    (h1 : paths ≠ []) (h2 : strStartsWith p "/" = false) :
    matchHTTPPaths paths p =
      Except.error ⟨"invalid HTTP request path " ++ p⟩ := by
  simp [matchHTTPPaths, isEmpty_false_of_ne_nil h1, h2]

/-- Witness for C4 at the test suite's input: one exact matcher and the
unrooted path "foo". -/
theorem c4_bad_path_raises_invalid_data_witness :
    matchHTTPPaths [PathMatch.exact "/foo"] "foo" =
      Except.error ⟨"invalid HTTP request path " ++ "foo"⟩ :=
  c4_bad_path_raises_invalid_data [PathMatch.exact "/foo"] "foo" (by simp) (by decide)

/-- Claim C5: matchHTTPPaths truncates the candidate at the first question
mark or hash before comparison and applies exact/prefix semantics on the
truncated path; a non-empty list matches iff at least one matcher matches. -/
theorem c5_path_truncation_and_disjunction :
    matchHTTPPaths [PathMatch.exact "/foo"] "/foo?xyz" = Except.ok true ∧
    matchHTTPPaths [PathMatch.exact "/foo"] "/foo#xyz" = Except.ok true ∧
    matchHTTPPaths [PathMatch.pfx "/foobar"] "/foo?bar" = Except.ok false ∧
    matchHTTPPaths [PathMatch.exact "/foo"] "/foobar" = Except.ok false ∧
    ∀ (paths : List PathMatch) (p : String), paths ≠ [] → strStartsWith p "/" = true →
      (matchHTTPPaths paths p = Except.ok true ↔
        ∃ pm ∈ paths, pathMatches pm (stripQueryFragment p) = true) := by
  refine ⟨by rfl, by rfl, by rfl, by rfl, ?_⟩
  intro paths p h1 h2
  simp [matchHTTPPaths, isEmpty_false_of_ne_nil h1, h2, List.any_eq_true]

/-- Witness for C5: a two-matcher list where only the prefix matcher fires. -/
theorem c5_path_truncation_and_disjunction_witness :
    matchHTTPPaths [PathMatch.pfx "/joo", PathMatch.exact "/foo"] "/joobar" =
      Except.ok true :=
  (c5_path_truncation_and_disjunction.2.2.2.2
      [PathMatch.pfx "/joo", PathMatch.exact "/foo"] "/joobar" (by simp) (by decide)).mpr
    ⟨PathMatch.pfx "/joo", by simp, by decide⟩

/-- Claim C6: the rule with every clause empty or absent matches every flow
under every policy namespace; it is the identity of the AND composition. -/
theorem c6_empty_rule_matches_everything (pns : String) (c : RequestCache) :
    matchRule pns emptyRule c = Except.ok true := by
  have hs : matchSource pns emptyRule c = true := by
    simp [matchSource, emptyRule, namespaceScope, matchLabels, matchServiceAccount,
      matchIPSetIds, matchNotIPSetIds, matchPortRanges, matchNetOpt]
  have hd : matchDestination pns emptyRule c = true := by
    simp [matchDestination, emptyRule, namespaceScope, matchLabels, matchServiceAccount,
      matchIPSetIds, matchNotIPSetIds, matchIPPortSetIds, matchPortRanges, matchNetOpt]
  have hh : matchHTTP emptyRule.httpMatch c.flow.httpMethod c.flow.httpPath =
      Except.ok true := by rfl
  have hl := matchRule_of_http_ok_true pns emptyRule c hs hd hh
  rw [hl]
  simp [matchL4Protocol, emptyRule, matchProtocol, matchNotProtocol]

/-- Source address of the TestMatchRule scenario. -/
def c1SrcAddr : IPAddr := mkIPv4 192 168 4 22

/-- Destination address of the TestMatchRule scenario. -/
def c1DstAddr : IPAddr := mkIPv4 10 54 44 23

/-- An unrelated address used to populate the negative IP sets. -/
def c1OtherAddr : IPAddr := mkIPv4 5 6 7 8

/-- The policy-store snapshot of the TestMatchRule scenario. -/
def c1Store : PolicyStore where
  ipSetByID :=
    [("src0", ⟨[ipKey c1SrcAddr]⟩), ("src1", ⟨[ipKey c1SrcAddr, ipKey c1DstAddr]⟩),
      ("notSrc0", ⟨[ipKey c1OtherAddr, ipKey c1DstAddr]⟩), ("notSrc1", ⟨[ipKey c1OtherAddr]⟩),
      ("dst0", ⟨[ipKey c1DstAddr]⟩), ("dst1", ⟨[ipKey c1SrcAddr, ipKey c1DstAddr]⟩),
      ("notDst0", ⟨[ipKey c1OtherAddr]⟩), ("notDst1", ⟨[ipKey c1OtherAddr, ipKey c1SrcAddr]⟩)]
  namespaceLabelsByName := []

/-- The flow of the TestMatchRule scenario. -/
def c1Flow : Flow where
  sourceIP := some c1SrcAddr
  destIP := some c1DstAddr
  sourcePort := 8458
  destPort := 80
  protocol := 6
  sourceNamespace := "default"
  sourceServiceAccount := "sam"
  destNamespace := "default"
  destServiceAccount := "ian"
  httpMethod := "GET"
  httpPath := "/path"

/-- The request cache of the TestMatchRule scenario. -/
def c1Cache : RequestCache := ⟨c1Store, c1Flow⟩

/-- The fully-populated rule of the TestMatchRule scenario. -/
def c1Rule : Rule where
  srcServiceAccountMatch := some ⟨["john", "stevie", "sam"]⟩
  dstServiceAccountMatch := some ⟨["ian"]⟩
  srcIpSetIds := ["src0", "src1"]
  notSrcIpSetIds := ["notSrc0", "notSrc1"]
  dstIpSetIds := ["dst0", "dst1"]
  notDstIpSetIds := ["notDst0", "notDst1"]
  httpMatch := some ⟨["GET", "POST"], [PathMatch.pfx "/path", PathMatch.exact "/pathlong"]⟩
  protocol := some (ProtocolSpec.name "TCP")
  srcPorts := [⟨8458, 8460⟩, ⟨12, 12⟩]
  dstPorts := [⟨76, 80⟩, ⟨70, 79⟩]
  srcNet := ["192.168.4.0/24"]
  dstNet := ["10.54.0.0/16"]

/-- Claim C1: matching requires every populated sub-clause individually;
starting from any matching rule, flipping any single populated sub-clause
(service-account names, positive or negative IP-set ids, HTTP methods, HTTP
paths, protocol, source or destination ports, source or destination nets) to
a value that does not match the flow, holding all other clauses fixed, makes
the match false; restoring the clause restores the hypothesis's true result. -/
theorem c1_flip_any_populated_clause (pns : String) (r : Rule) (c : RequestCache)
    (h : matchRule pns r c = Except.ok true) :
    (∀ names, matchName names c.flow.sourceServiceAccount = false →
      matchRule pns { r with srcServiceAccountMatch := some ⟨names⟩ } c = Except.ok false) ∧
    (∀ names, matchName names c.flow.destServiceAccount = false →
      matchRule pns { r with dstServiceAccountMatch := some ⟨names⟩ } c = Except.ok false) ∧
    (∀ ids, matchIPSetIds c.store ids (c.flow.sourceIP.map ipKey) = false →
      matchRule pns { r with srcIpSetIds := ids } c = Except.ok false) ∧
    (∀ ids, matchIPSetIds c.store ids (c.flow.destIP.map ipKey) = false →
      matchRule pns { r with dstIpSetIds := ids } c = Except.ok false) ∧
    (∀ ids, matchNotIPSetIds c.store ids (c.flow.sourceIP.map ipKey) = false →
      matchRule pns { r with notSrcIpSetIds := ids } c = Except.ok false) ∧
    (∀ ids, matchNotIPSetIds c.store ids (c.flow.destIP.map ipKey) = false →
      matchRule pns { r with notDstIpSetIds := ids } c = Except.ok false) ∧
    (∀ hm ms, r.httpMatch = some hm → matchHTTPMethods ms c.flow.httpMethod = false →
      matchRule pns { r with httpMatch := some { hm with methods := ms } } c = Except.ok false) ∧
    (∀ hm ps, r.httpMatch = some hm →
      matchHTTPPaths ps c.flow.httpPath = Except.ok false →
      matchRule pns { r with httpMatch := some { hm with paths := ps } } c = Except.ok false) ∧
    (∀ p, protocolSpecMatches p c.flow.protocol = false →
      matchRule pns { r with protocol := some p } c = Except.ok false) ∧
    (∀ ranges, matchPortRanges ranges c.flow.sourcePort = false →
      matchRule pns { r with srcPorts := ranges } c = Except.ok false) ∧
    (∀ ranges, matchPortRanges ranges c.flow.destPort = false →
      matchRule pns { r with dstPorts := ranges } c = Except.ok false) ∧
    (∀ nets, matchNetOpt nets c.flow.sourceIP = false →
      matchRule pns { r with srcNet := nets } c = Except.ok false) ∧
    (∀ nets, matchNetOpt nets c.flow.destIP = false →
      matchRule pns { r with dstNet := nets } c = Except.ok false) := by
  obtain ⟨hS, hD, hH, hL⟩ := matchRule_ok_true_elim pns r c h
  refine ⟨?_, ?_, ?_, ?_, ?_, ?_, ?_, ?_, ?_, ?_, ?_, ?_, ?_⟩
  · intro names hflip
    apply matchRule_of_source_false
    simp [matchSource, matchServiceAccount, hflip]
  · intro names hflip
    refine matchRule_of_dest_false _ _ _ ?_ ?_
    · exact hS
    · simp [matchDestination, matchServiceAccount, hflip]
  · intro ids hflip
    apply matchRule_of_source_false
    simp [matchSource, hflip]
  · intro ids hflip
    refine matchRule_of_dest_false _ _ _ ?_ ?_
    · exact hS
    · simp [matchDestination, hflip]
  · intro ids hflip
    apply matchRule_of_source_false
    simp [matchSource, hflip]
  · intro ids hflip
    refine matchRule_of_dest_false _ _ _ ?_ ?_
    · exact hS
    · simp [matchDestination, hflip]
  · intro hm ms hhm hflip
    refine matchRule_of_http_ok_false _ _ _ ?_ ?_ ?_
    · exact hS
    · exact hD
    · simp [matchHTTP, hflip]
  · intro hm ps hhm hflip
    rw [hhm] at hH
    simp only [matchHTTP] at hH
    cases hmm : matchHTTPMethods hm.methods c.flow.httpMethod with
    | false => rw [hmm] at hH; simp at hH
    | true =>
      refine matchRule_of_http_ok_false _ _ _ ?_ ?_ ?_
      · exact hS
      · exact hD
      · simp [matchHTTP, hmm, hflip]
  · intro p hflip
    have ht : matchRule pns { r with protocol := some p } c =
        Except.ok (matchL4Protocol { r with protocol := some p } c.flow) := by
      refine matchRule_of_http_ok_true _ _ _ ?_ ?_ ?_
      · exact hS
      · exact hD
      · exact hH
    rw [ht]
    simp [matchL4Protocol, matchProtocol, hflip]
  · intro ranges hflip
    apply matchRule_of_source_false
    simp [matchSource, hflip]
  · intro ranges hflip
    refine matchRule_of_dest_false _ _ _ ?_ ?_
    · exact hS
    · simp [matchDestination, hflip]
  · intro nets hflip
    apply matchRule_of_source_false
    simp [matchSource, hflip]
  · intro nets hflip
    refine matchRule_of_dest_false _ _ _ ?_ ?_
    · exact hS
    · simp [matchDestination, hflip]

/-- Witness for C1 at the TestMatchRule data: the scenario rule matches, and
flipping its source-port clause to the non-matching single port 25 makes the
match false. -/
theorem c1_flip_any_populated_clause_witness :
    matchRule "" c1Rule c1Cache = Except.ok true ∧
    matchRule "" { c1Rule with srcPorts := [⟨25, 25⟩] } c1Cache = Except.ok false := by
  have h : matchRule "" c1Rule c1Cache = Except.ok true := by rfl
  exact ⟨h, (c1_flip_any_populated_clause "" c1Rule c1Cache h).2.2.2.2.2.2.2.2.2.1
    [⟨25, 25⟩] (by rfl)⟩

/-- The flow of the TestMatchRulePolicyNamespace scenario: both peers live in
namespace "testns". -/
def nsFlow : Flow where
  sourceNamespace := "testns"
  sourceServiceAccount := "sam"
  destNamespace := "testns"
  destServiceAccount := "ian"
  httpMethod := "GET"

/-- The request cache of the TestMatchRulePolicyNamespace scenario: an empty
store and the testns flow. -/
def nsCache : RequestCache := ⟨{}, nsFlow⟩

/-- A rule with no pod-label selector and no service-account match reads the
policy namespace only through the (bypassed) scoping check, so its result is
independent of the policy namespace. -/
theorem matchRule_unscoped_pns_independent (pns pns' : String) (r : Rule)
    (c : RequestCache) (h1 : r.originalSrcSelector = "")
    (h2 : r.srcServiceAccountMatch = none) (h3 : r.originalDstSelector = "")
    (h4 : r.dstServiceAccountMatch = none) :
    matchRule pns r c = matchRule pns' r c := by
  have hscope : ∀ (q ns : String), namespaceScope q "" none ns = true := by
    intro q ns
    simp [namespaceScope]
  have hs : matchSource pns r c = matchSource pns' r c := by
    unfold matchSource
    rw [h1, h2, hscope, hscope]
  have hd : matchDestination pns r c = matchDestination pns' r c := by
    unfold matchDestination
    rw [h3, h4, hscope, hscope]
  unfold matchRule
  rw [hs, hd]

/-- A rule whose destination-side clauses fail does not match, whatever the
source side evaluates to. -/
theorem matchRule_of_dest_false_any (pns : String) (r : Rule) (c : RequestCache)
    (hd : matchDestination pns r c = false) : matchRule pns r c = Except.ok false := by
  cases hs : matchSource pns r c with
  | false => exact matchRule_of_source_false pns r c hs
  | true => exact matchRule_of_dest_false pns r c hs hd

/-- Counterexample to C2 as stated: the in-src test TestMatchRule evaluates a
rule with a populated service-account match under the empty policy namespace
of a global policy; the flow's namespace "testns" differs from "", yet the
rule matches. -/
theorem c2_counterexample_global_policy :
    nsCache.flow.sourceNamespace ≠ "" ∧
    matchRule "" { emptyRule with srcServiceAccountMatch := some ⟨["sam"]⟩ } nsCache =
      Except.ok true := by
  exact ⟨by decide, by rfl⟩

/-- Claim C2 (amended): for a namespaced policy (non-empty policy namespace),
a rule with a pod-label selector or a service-account match on a side matches
only flows whose namespace on that side equals the policy namespace, whatever
the selector content; a rule with neither is namespace-unscoped (its result
does not depend on the policy namespace at all). -/
theorem c2_selector_scopes_to_policy_namespace (pns : String) (r : Rule)
    (c : RequestCache) :
    ((r.originalSrcSelector ≠ "" ∨ r.srcServiceAccountMatch.isSome = true) →
      pns ≠ "" → c.flow.sourceNamespace ≠ pns →
      matchRule pns r c = Except.ok false) ∧
    ((r.originalDstSelector ≠ "" ∨ r.dstServiceAccountMatch.isSome = true) →
      pns ≠ "" → c.flow.destNamespace ≠ pns →
      matchRule pns r c = Except.ok false) ∧
    (r.originalSrcSelector = "" → r.srcServiceAccountMatch = none →
      r.originalDstSelector = "" → r.dstServiceAccountMatch = none →
      ∀ pns', matchRule pns r c = matchRule pns' r c) := by
  refine ⟨?_, ?_, ?_⟩
  · intro hsel hp hns
    apply matchRule_of_source_false
    have hcond : ((pns != "") &&
        (r.originalSrcSelector != "" || r.srcServiceAccountMatch.isSome)) = true := by
      rcases hsel with hh | hh
      · simp [bne_iff_ne, hp, hh]
      · simp [bne_iff_ne, hp, hh]
    have heq : (pns == c.flow.sourceNamespace) = false := by
      rw [beq_eq_false_iff_ne]
      exact fun hh => hns hh.symm
    simp [matchSource, namespaceScope, hcond, heq]
  · intro hsel hp hns
    apply matchRule_of_dest_false_any
    have hcond : ((pns != "") &&
        (r.originalDstSelector != "" || r.dstServiceAccountMatch.isSome)) = true := by
      rcases hsel with hh | hh
      · simp [bne_iff_ne, hp, hh]
      · simp [bne_iff_ne, hp, hh]
    have heq : (pns == c.flow.destNamespace) = false := by
      rw [beq_eq_false_iff_ne]
      exact fun hh => hns hh.symm
    simp [matchDestination, namespaceScope, hcond, heq]
  · intro h1 h2 h3 h4 pns'
    exact matchRule_unscoped_pns_independent pns pns' r c h1 h2 h3 h4

/-- Witness for C2 at the TestMatchRulePolicyNamespace data: the pod-selector
rule under policy namespace "different" fails against the "testns" flow. -/
theorem c2_selector_scopes_to_policy_namespace_witness :
    matchRule "different" { emptyRule with originalSrcSelector := "has(app)" } nsCache =
      Except.ok false :=
  (c2_selector_scopes_to_policy_namespace "different"
      { emptyRule with originalSrcSelector := "has(app)" } nsCache).1
    (Or.inl (by decide)) (by decide) (by decide)

/-- Counterexample to C3 as stated: the in-src test TestMatchRulePolicyNamespace
checks that a rule with neither a pod-label selector nor a service-account
match matches a flow in namespace "testns" under policy namespace "different";
the claim demands false there. -/
theorem c3_counterexample_unscoped_rule_matches :
    nsCache.flow.sourceNamespace ≠ "different" ∧
    matchRule "different" emptyRule nsCache = Except.ok true := by
  exact ⟨by decide, by rfl⟩

/-- Claim C3 (amended): a rule with neither a pod-label selector nor a
service-account match carries no implicit policy-namespace scoping at all: its
match result is the same under every policy namespace.  (The implicit
same-namespace restriction applies instead exactly when one of those selectors
is present and the policy is namespaced.) -/
theorem c3_no_selector_no_namespace_scoping (pns pns' : String) (r : Rule)
    (c : RequestCache) (h1 : r.originalSrcSelector = "")
    (h2 : r.srcServiceAccountMatch = none) (h3 : r.originalDstSelector = "")
    (h4 : r.dstServiceAccountMatch = none) :
    matchRule pns r c = matchRule pns' r c :=
  matchRule_unscoped_pns_independent pns pns' r c h1 h2 h3 h4

/-- Witness for C3: the empty rule evaluates identically under the policy
namespaces "different" and "testns". -/
theorem c3_no_selector_no_namespace_scoping_witness :
    matchRule "different" emptyRule nsCache = matchRule "testns" emptyRule nsCache :=
  c3_no_selector_no_namespace_scoping "different" "testns" emptyRule nsCache
    rfl rfl rfl rfl

/-- Claim C7: a protocol clause matches by case-sensitive name or by number
against the flow's transport protocol; TCP is protocol 6 and 17 is not TCP;
and a rule specifying both Protocol and NotProtocol as the same protocol can
match no flow, because the two ANDed conditions are contradictory. -/
theorem c7_protocol_name_number_and_contradiction :
    matchProtocol (some (ProtocolSpec.name "TCP")) 6 = true ∧
    matchProtocol (some (ProtocolSpec.number 6)) 6 = true ∧
    matchProtocol (some (ProtocolSpec.number 17)) 6 = false ∧
    (∀ (p : ProtocolSpec) (r : Rule) (f : Flow),
      r.protocol = some p → r.notProtocol = some p → matchL4Protocol r f = false) ∧
    (∀ (pns : String) (c : RequestCache),
      matchRule pns
        { emptyRule with protocol := some (ProtocolSpec.name "TCP"),
                         notProtocol := some (ProtocolSpec.name "TCP") } c =
        Except.ok false) := by
  refine ⟨by rfl, by rfl, by rfl, ?_, ?_⟩
  · intro p r f hp hnp
    simp [matchL4Protocol, matchProtocol, matchNotProtocol, hp, hnp]
  · intro pns c
    have hs : matchSource pns
        { emptyRule with protocol := some (ProtocolSpec.name "TCP"),
                         notProtocol := some (ProtocolSpec.name "TCP") } c = true := by
      simp [matchSource, emptyRule, namespaceScope, matchLabels, matchServiceAccount,
        matchIPSetIds, matchNotIPSetIds, matchPortRanges, matchNetOpt]
    have hd : matchDestination pns
        { emptyRule with protocol := some (ProtocolSpec.name "TCP"),
                         notProtocol := some (ProtocolSpec.name "TCP") } c = true := by
      simp [matchDestination, emptyRule, namespaceScope, matchLabels, matchServiceAccount,
        matchIPSetIds, matchNotIPSetIds, matchIPPortSetIds, matchPortRanges, matchNetOpt]
    have ht := matchRule_of_http_ok_true pns
      { emptyRule with protocol := some (ProtocolSpec.name "TCP"),
                       notProtocol := some (ProtocolSpec.name "TCP") } c hs hd (by rfl)
    rw [ht]
    simp [matchL4Protocol, matchProtocol, matchNotProtocol]

/-- Witness for C7: the contradictory TCP-and-not-TCP rule fails on a UDP
flow no less than on the TestMatchRulePolicyNamespace cache. -/
theorem c7_protocol_name_number_and_contradiction_witness :
    matchL4Protocol
      { emptyRule with protocol := some (ProtocolSpec.name "TCP"),
                       notProtocol := some (ProtocolSpec.name "TCP") }
      { nsFlow with protocol := 17 } = false :=
  c7_protocol_name_number_and_contradiction.2.2.2.1 (ProtocolSpec.name "TCP")
    { emptyRule with protocol := some (ProtocolSpec.name "TCP"),
                     notProtocol := some (ProtocolSpec.name "TCP") }
    { nsFlow with protocol := 17 } rfl rfl

/-- A valid selector of the TestMatchLabels scenario, equality of label "app"
with the quoted literal value "foo". -/
def selectorAppFoo : String :=
  "app == " ++ String.mk [quoteChar] ++ "foo" ++ String.mk [quoteChar]

/-- Claim C8: matchLabels fails closed on malformed configuration: the empty
selector matches every label map, a syntactically invalid selector such as
"not.a.real.selector" matches no label map (false, never an error), and a
selector that parses is evaluated by standard label-selector semantics. -/
theorem c8_match_labels_fails_closed :
    (∀ labels, matchLabels "" labels = true) ∧
    (∀ labels, matchLabels "not.a.real.selector" labels = false) ∧
    (∀ s labels, s ≠ "" → parseSelector s = none → matchLabels s labels = false) ∧
    (∀ s sel labels, parseSelector s = some sel →
      matchLabels s labels = evalSelector sel labels) := by
  refine ⟨?_, ?_, ?_, ?_⟩
  · intro labels; rfl
  · intro labels; rfl
  · intro s labels hs hp
    have hb : (s == "") = false := beq_eq_false_iff_ne.mpr hs
    simp [matchLabels, hb, hp]
  · intro s sel labels hp
    have hs : s ≠ "" := by
      intro he
      subst he
      rw [show parseSelector "" = none from rfl] at hp
      exact Option.noConfusion hp
    have hb : (s == "") = false := beq_eq_false_iff_ne.mpr hs
    simp [matchLabels, hb, hp]

/-- Witness for C8: the valid selector of TestMatchLabels is evaluated by the
standard semantics on the test's label map. -/
theorem c8_match_labels_fails_closed_witness :
    matchLabels selectorAppFoo [("app", "foo"), ("env", "prod")] =
      evalSelector (Selector.eqVal "app" "foo") [("app", "foo"), ("env", "prod")] :=
  c8_match_labels_fails_closed.2.2.2 selectorAppFoo (Selector.eqVal "app" "foo")
    [("app", "foo"), ("env", "prod")] (by rfl)

/-- Claim C9: matchNet is IP-version-sensitive: an IPv4 address never matches
a non-empty list of IPv6-only CIDRs and an IPv6 address never matches a
non-empty list of IPv4-only CIDRs, whatever the prefix lengths, including /0;
the empty list matches every address; and a non-empty list matches exactly
when the address falls inside at least one listed, parseable CIDR. -/
theorem c9_match_net_version_sensitive :
    (∀ a, matchNet [] a = true) ∧
    (∀ (nets : List String) (n : Nat), nets ≠ [] →
      (∀ s ∈ nets, ∃ cd, parseCIDR s = some cd ∧ cidrIsV6 cd = true) →
      matchNet nets (IPAddr.v4 n) = false) ∧
    (∀ (nets : List String) (n : Nat), nets ≠ [] →
      (∀ s ∈ nets, ∃ cd, parseCIDR s = some cd ∧ cidrIsV4 cd = true) →
      matchNet nets (IPAddr.v6 n) = false) ∧
    (∀ (nets : List String) (a : IPAddr), nets ≠ [] →
      (matchNet nets a = true ↔
        ∃ s ∈ nets, ∃ cd, parseCIDR s = some cd ∧ cidrContains cd a = true)) := by
  refine ⟨?_, ?_, ?_, ?_⟩
  · intro a; rfl
  · intro nets n hne hv
    unfold matchNet
    rw [isEmpty_false_of_ne_nil hne]
    simp only [Bool.false_or]
    rw [List.any_eq_false]
    intro s hs
    obtain ⟨cd, hcd, hver⟩ := hv s hs
    unfold netContainsIP
    rw [hcd]
    cases cd with
    | mk addr ml =>
      cases addr with
      | v4 m => simp [cidrIsV6] at hver
      | v6 m => simp [cidrContains]
  · intro nets n hne hv
    unfold matchNet
    rw [isEmpty_false_of_ne_nil hne]
    simp only [Bool.false_or]
    rw [List.any_eq_false]
    intro s hs
    obtain ⟨cd, hcd, hver⟩ := hv s hs
    unfold netContainsIP
    rw [hcd]
    cases cd with
    | mk addr ml =>
      cases addr with
      | v6 m => simp [cidrIsV4] at hver
      | v4 m => simp [cidrContains]
  · intro nets a hne
    unfold matchNet
    rw [isEmpty_false_of_ne_nil hne]
    simp only [Bool.false_or]
    rw [List.any_eq_true]
    constructor
    · rintro ⟨s, hs, hc⟩
      refine ⟨s, hs, ?_⟩
      unfold netContainsIP at hc
      rcases hp : parseCIDR s with _ | cd
      · rw [hp] at hc; simp at hc
      · rw [hp] at hc; exact ⟨cd, rfl, hc⟩
    · rintro ⟨s, hs, cd, hcd, hc⟩
      refine ⟨s, hs, ?_⟩
      unfold netContainsIP
      rw [hcd]
      exact hc

/-- Witness for C9 at the TestMatchNet data: the IPv4 address 192.168.3.145
does not match the IPv6-only list containing the /0 CIDR 55ae:4481::/0. -/
theorem c9_match_net_version_sensitive_witness :
    matchNet ["55ae:4481::/0"] (mkIPv4 192 168 3 145) = false :=
  c9_match_net_version_sensitive.2.1 ["55ae:4481::/0"]
    (((192 * 256 + 168) * 256 + 3) * 256 + 145) (by simp)
    (by
      intro s hs
      rw [List.mem_singleton] at hs
      subst hs
      exact ⟨⟨IPAddr.v6 113889228719388921857876284465370628096, 0⟩, by rfl, by rfl⟩)

/-- Route types from felix proto, as used by the IPIP manager. -/
inductive RouteType where
  | remoteWorkload
  | remoteHost
  | localWorkload
  | localHost
  | localTunnel
  | remoteTunnel
  | cidrInfo
deriving DecidableEq, Repr

/-- IP-pool types from felix proto. -/
inductive IPPoolType where
  | nonePool
  | noEncap
  | vxlan
  | ipip
deriving DecidableEq, Repr

/-- The fields of a proto.RouteUpdate the IPIP manager reads. -/
structure RouteUpdateMsg where
  dst : String := ""
  typ : RouteType := RouteType.cidrInfo
  ipPoolType : IPPoolType := IPPoolType.nonePool
  dstNodeName : String := ""
deriving DecidableEq, Repr

/-- The update messages handled by ipipManager.OnUpdate. -/
inductive IpipMsg where
  | routeUpdate (r : RouteUpdateMsg)
  | routeRemove (dst : String)
  | hostMetadataUpdate (hostname ipv4Addr : String)
  | hostMetadataRemove (hostname : String)
deriving DecidableEq, Repr

/-- The manager-owned state that OnUpdate can touch: the pending route maps,
the all-hosts map, the mutex-guarded local host address, and the two dirty
flags.  Go maps are modelled as association lists. -/
structure IpipManagerState where
  routesByDest : List (String × RouteUpdateMsg) := []
  localIPAMBlocks : List (String × RouteUpdateMsg) := []
  activeHostnameToIP : List (String × String) := []
  hostAddr : String := ""
  ipSetDirty : Bool := true
  routesDirty : Bool := true
deriving DecidableEq, Repr

/-- Removes a key from an association list (Go map delete). -/
def eraseKey {α : Type} (l : List (String × α)) (k : String) : List (String × α) :=
  l.filter (fun p => p.1 != k)

/-- Key-membership test on an association list. -/
def containsKey {α : Type} (l : List (String × α)) (k : String) : Bool :=
  l.any (fun p => p.1 == k)

/-- Sets a key in an association list (Go map assignment). -/
def insertKey {α : Type} (l : List (String × α)) (k : String) (v : α) :
    List (String × α) :=
  eraseKey l k ++ [(k, v)]

/-- Translated from ipip_mgr.go deleteRoute: removes the destination from
routesByDest and from localIPAMBlocks, marking routes dirty on each map that
actually contained it. -/
def deleteRoute (m : IpipManagerState) (dst : String) : IpipManagerState :=
  let m1 :=
    if containsKey m.routesByDest dst then
      { m with routesByDest := eraseKey m.routesByDest dst, routesDirty := true }
    else m
  if containsKey m1.localIPAMBlocks dst then
    { m1 with localIPAMBlocks := eraseKey m1.localIPAMBlocks dst, routesDirty := true }
  else m1

/-- Translated from ipip_mgr.go OnUpdate.  Route updates and removals whose
destination does not parse as a CIDR, or whose CIDR IP version differs from
the manager's configured version, are skipped entirely.  The helper
routeIsLocalBlock is defined outside the excerpt, so it is a parameter here;
CIDRFromString is modelled by parseCIDR.  setLocalHostAddr is modelled by its
effect on the guarded hostAddr field. -/
def ipipOnUpdate (ipVersion : Nat) (hostname : String)
    (routeIsLocalBlock : RouteUpdateMsg → Bool)
    (m : IpipManagerState) (msg : IpipMsg) : IpipManagerState :=
  match msg with
  | IpipMsg.routeUpdate r =>
    match parseCIDR r.dst with
    | none => m
    | some cd =>
      if ipVersion != cidrVersion cd then m
      else
        let m1 := deleteRoute m r.dst
        let m2 :=
          if r.typ == RouteType.remoteWorkload && r.ipPoolType == IPPoolType.ipip then
            { m1 with routesByDest := insertKey m1.routesByDest r.dst r,
                      routesDirty := true }
          else m1
        if routeIsLocalBlock r then
          { m2 with localIPAMBlocks := insertKey m2.localIPAMBlocks r.dst r,
                    routesDirty := true }
        else if containsKey m2.localIPAMBlocks r.dst then
          { m2 with localIPAMBlocks := eraseKey m2.localIPAMBlocks r.dst,
                    routesDirty := true }
        else m2
  | IpipMsg.routeRemove dst =>
    match parseCIDR dst with
    | none => m
    | some cd =>
      if ipVersion != cidrVersion cd then m
      else deleteRoute m dst
  | IpipMsg.hostMetadataUpdate h a =>
    { m with hostAddr := if h == hostname then a else m.hostAddr,
             activeHostnameToIP := insertKey m.activeHostnameToIP h a,
             ipSetDirty := true,
             routesDirty := true }
  | IpipMsg.hostMetadataRemove h =>
    { m with hostAddr := if h == hostname then "" else m.hostAddr,
             activeHostnameToIP := eraseKey m.activeHostnameToIP h,
             ipSetDirty := true,
             routesDirty := true }

/-- True when OnUpdate skips a route message with this destination: the
string does not parse as a CIDR, or its IP version differs from the
manager's configured one. -/
def dstSkipped (ipVersion : Nat) (dst : String) : Bool :=
  match parseCIDR dst with
  | none => true
  | some cd => ipVersion != cidrVersion cd

/-- Claim C10: a RouteUpdate or RouteRemove whose destination does not parse
as a CIDR, or whose CIDR IP version differs from the manager's configured
ipVersion, leaves the whole manager state (routesByDest, localIPAMBlocks,
activeHostnameToIP, hostAddr, ipSetDirty, routesDirty) unchanged: the message
is skipped rather than partially applied. -/
theorem c10_on_update_skips_bad_destination (ipVersion : Nat) (hostname : String)
    (routeIsLocalBlock : RouteUpdateMsg → Bool) (m : IpipManagerState)
    (r : RouteUpdateMsg) (d : String)
    (h1 : dstSkipped ipVersion r.dst = true) (h2 : dstSkipped ipVersion d = true) :
    ipipOnUpdate ipVersion hostname routeIsLocalBlock m (IpipMsg.routeUpdate r) = m ∧
    ipipOnUpdate ipVersion hostname routeIsLocalBlock m (IpipMsg.routeRemove d) = m := by
  constructor
  · unfold ipipOnUpdate
    unfold dstSkipped at h1
    rcases hp : parseCIDR r.dst with _ | cd
    · simp [hp]
    · rw [hp] at h1
      simp at h1
      simp [hp, h1]
  · unfold ipipOnUpdate
    unfold dstSkipped at h2
    rcases hp : parseCIDR d with _ | cd
    · simp [hp]
    · rw [hp] at h2
      simp at h2
      simp [hp, h2]

/-- A pending remote-workload IPIP route, for the C10 witness state. -/
def c10PendingRoute : RouteUpdateMsg where
  dst := "10.0.1.0/24"
  typ := RouteType.remoteWorkload
  ipPoolType := IPPoolType.ipip
  dstNodeName := "nodeB"

/-- A route update whose destination string is not a CIDR. -/
def c10BadRoute : RouteUpdateMsg where
  dst := "garbage"
  typ := RouteType.remoteWorkload
  ipPoolType := IPPoolType.ipip
  dstNodeName := "nodeB"

/-- A concrete non-trivial manager state for the C10 witness. -/
def c10State : IpipManagerState where
  routesByDest := [("10.0.1.0/24", c10PendingRoute)]
  localIPAMBlocks := []
  activeHostnameToIP := [("nodeA", "10.0.0.1")]
  hostAddr := "10.0.0.1"
  ipSetDirty := false
  routesDirty := false

/-- Witness for C10: an unparseable RouteUpdate destination and an
IPv6-for-IPv4 RouteRemove destination both leave the concrete state intact. -/
theorem c10_on_update_skips_bad_destination_witness :
    ipipOnUpdate 4 "nodeA" (fun _ => false) c10State
      (IpipMsg.routeUpdate c10BadRoute) = c10State ∧
    ipipOnUpdate 4 "nodeA" (fun _ => false) c10State
      (IpipMsg.routeRemove "55ae:4481::/0") = c10State :=
  c10_on_update_skips_bad_destination 4 "nodeA" (fun _ => false) c10State
    c10BadRoute "55ae:4481::/0" (by rfl) (by rfl)

end Calico
